import Mathlib

/-
Verification of the shopee-recommendation repository against its
natural-language specification.

The Python sources (main.py, main_2.py, cek_shopee.py, fetch_direct.py)
are shallowly embedded below:
* JSON-ish Python values become the inductive type `Val`; Python floats are
  modelled as rationals (`Rat`), and `str()` of list/dict values is
  abbreviated because no verified property inspects such a rendering.
* Python expressions that can raise are modelled in the `Option` monad,
  `none` standing for a raised exception.
* `dict.get`, truthiness, `or`, indexing, slicing and f-string rendering get
  dedicated helper functions mirroring the Python semantics the sources use.
-/

/-- Python-style value as produced by json.load. Numbers keep the int/float
distinction Python makes; floats are modelled as rationals. -/
inductive Val where
  | null
  | bool (b : Bool)
  | int (n : Int)
  | float (q : Rat)
  | str (s : String)
  | list (xs : List Val)
  | dict (kvs : List (String × Val))

/-- First binding of a key in an association list (Python dicts have unique
keys, so this is Python dict lookup). -/
def lookupKey : List (String × Val) → String → Option Val
  | [], _ => none
  | (k, v) :: rest, key => if k == key then some v else lookupKey rest key

/-- Python truthiness (`bool(v)`). -/
def Val.truthy : Val → Bool
  | .null => false
  | .bool b => b
  | .int n => n != 0
  | .float q => q != 0
  | .str s => s != ""
  | .list xs => !xs.isEmpty
  | .dict kvs => !kvs.isEmpty

/-- `d.get(k, dflt)`: `none` models the AttributeError raised when the
receiver is not a dict. -/
def Val.getDflt : Val → String → Val → Option Val
  | .dict kvs, k, dflt => some ((lookupKey kvs k).getD dflt)
  | _, _, _ => none

/-- `d.get(k)` (default `None`). -/
def Val.getS (v : Val) (k : String) : Option Val :=
  v.getDflt k .null

/-- `d.get(k, dflt)` once the receiver is known to be a dict (the item
extractors match on the dict constructor once, since every `.get` on the
same receiver raises in exactly the same case: a non-dict receiver). -/
def dgetD (kvs : List (String × Val)) (k : String) (dflt : Val) : Val :=
  (lookupKey kvs k).getD dflt

/-- `d.get(k)` for a known dict receiver. -/
def dget (kvs : List (String × Val)) (k : String) : Val :=
  dgetD kvs k .null

/-- `k in d` for a dict receiver (used only to state claims about absent
fields; non-dicts hold no keys). -/
def Val.hasKey : Val → String → Bool
  | .dict kvs, k => (lookupKey kvs k).isSome
  | _, _ => false

/-- Python `a or b` (both operands already evaluated). -/
def pyOr (a b : Val) : Val :=
  if a.truthy then a else b

/-- `for x in v`: lists yield elements, strings yield 1-character strings,
dicts yield their keys; anything else raises. -/
def Val.iter : Val → Option (List Val)
  | .list xs => some xs
  | .str s => some (s.data.map (fun c => .str (String.mk [c])))
  | .dict kvs => some (kvs.map (fun kv => .str kv.1))
  | _ => none

/-- `v[0]`: first element of a list or first character of a string;
empty or non-indexable receivers raise. -/
def pyIndex0 : Val → Option Val
  | .list (x :: _) => some x
  | .str s =>
    match s.data with
    | c :: _ => some (.str (String.mk [c]))
    | [] => none
  | _ => none

/-- `v[:3]` followed by iteration (the daily-discover image cap). -/
def pySlice3 : Val → Option (List Val)
  | .list xs => some (xs.take 3)
  | .str s => some ((s.data.take 3).map (fun c => .str (String.mk [c])))
  | _ => none

/-- `len(v)`; raises on numbers and None. -/
def pyLen : Val → Option Nat
  | .list xs => some xs.length
  | .str s => some s.length
  | .dict kvs => some kvs.length
  | _ => none

/-- `v / 100000`, the fixed price scale division; raises unless the operand
is numeric (Python bool counts as numeric). -/
def pyDiv100000 : Val → Option Rat
  | .int n => some ((n : Rat) / 100000)
  | .float q => some (q / 100000)
  | .bool b => some ((if b then 1 else 0 : Rat) / 100000)
  | _ => none

/-- `v == 1` (true for int 1, float 1.0 and True). -/
def pyEqInt1 : Val → Bool
  | .int n => n == 1
  | .float q => q == 1
  | .bool b => b
  | _ => false

/-- `v == "lit"` for a string literal right operand. -/
def pyEqStr (v : Val) (lit : String) : Bool :=
  match v with
  | .str s => s == lit
  | _ => false

/-- f-string rendering `str(v)`. The rendering of floats, lists and dicts is
abbreviated: no verified claim inspects those renderings. -/
def Val.pyStr : Val → String
  | .null => "None"
  | .bool true => "True"
  | .bool false => "False"
  | .int n => toString n
  | .float q => toString q
  | .str s => s
  | .list _ => "[...]"
  | .dict _ => "\x7b...\x7d"

/- ## Character-list string helpers (kernel-reducible replacements for the
library string functions the Python sources rely on). -/

/-- Whitespace stripped by Python `str.strip()`. -/
def isPySpace (c : Char) : Bool :=
  c == ' ' || c == '\t' || c == '\n' || c == '\x0d' || c == '\x0b' || c == '\x0c'

/-- `str.strip()`. -/
def trimChars (cs : List Char) : List Char :=
  ((cs.dropWhile isPySpace).reverse.dropWhile isPySpace).reverse

/-- `str.lower()` (ASCII, as used by the sources). -/
def lowerChars (cs : List Char) : List Char :=
  cs.map Char.toLower

/-- `str.split(sep)` for a one-character separator: `"".split(",") = [""]`. -/
def splitChar (sep : Char) : List Char → List (List Char)
  | [] => [[]]
  | c :: cs =>
    match splitChar sep cs with
    | [] => [[]]
    | p :: ps => if c == sep then [] :: p :: ps else (c :: p) :: ps

/-- `str.split(sep, 1)`: the part before the first separator and the part
after it (receiver is known to contain the separator when used). -/
def splitOnceChar (sep : Char) : List Char → List Char × List Char
  | [] => ([], [])
  | c :: cs =>
    if c == sep then ([], cs)
    else
      let p := splitOnceChar sep cs
      (c :: p.1, p.2)

/-- `needle in hay` for strings (substring containment). -/
def startsWithChars : List Char → List Char → Bool
  | [], _ => true
  | _ :: _, [] => false
  | a :: as, b :: bs => a == b && startsWithChars as bs

/-- Python `needle in hay` substring test. -/
def strContains (needle hay : String) : Bool :=
  (List.range (hay.data.length + 1)).any
    (fun i => startsWithChars needle.data (hay.data.drop i))

/-- `c in s` for one character. -/
def charIn (c : Char) (cs : List Char) : Bool :=
  cs.any (fun x => x == c)

/-- The literal brace character excluded by the info-string parser. -/
def lbraceChar : Char := Char.ofNat 123

/-- The character class of the regex `[\d.]`. -/
def numCharset (c : Char) : Bool :=
  c.isDigit || c == '.'

/-- Maximal leading run of `[\d.]` characters (greedy `[\d.]+`). -/
def runCharset : List Char → List Char
  | [] => []
  | c :: cs => if numCharset c then c :: runCharset cs else []

/-- `re.search(lit + r'([\d.]+)', s)`: leftmost position where the literal is
followed by at least one `[\d.]` character; returns the captured group. -/
def searchNumAfter (lit : List Char) : List Char → Option (List Char)
  | [] => none
  | c :: cs =>
    if startsWithChars lit (c :: cs) then
      match (c :: cs).drop lit.length with
      | r :: rs =>
        if numCharset r then some (r :: runCharset rs) else searchNumAfter lit cs
      | [] => searchNumAfter lit cs
    else searchNumAfter lit cs

/-- Digit run to a natural number. -/
def digitsToNat (cs : List Char) : Nat :=
  cs.foldl (fun a c => a * 10 + (c.toNat - 48)) 0

/-- Python `float()` applied to a string drawn from `[\d.]+`: valid iff it
has at most one dot and at least one digit; `none` models the ValueError. -/
def pyFloat (cs : List Char) : Option Rat :=
  match splitChar '.' cs with
  | [ip] =>
    if ip.all Char.isDigit && !ip.isEmpty then some (digitsToNat ip : Rat) else none
  | [ip, fp] =>
    if (ip ++ fp).all Char.isDigit && !(ip.isEmpty && fp.isEmpty) then
      some ((digitsToNat ip : Rat) + (digitsToNat fp : Rat) / (10 ^ fp.length : Rat))
    else none
  | _ => none

/-- Python dict assignment `d[k] = v`: replace in place or append. -/
def dinsert : List (String × Val) → String → Val → List (String × Val)
  | [], k, v => [(k, v)]
  | (k0, v0) :: rest, k, v =>
    if k0 == k then (k0, v) :: rest else (k0, v0) :: dinsert rest k v

/- ## urllib.parse.quote -/

/-- Uppercase hex digit. -/
def hexDigitU (n : Nat) : Char :=
  if n < 10 then Char.ofNat (48 + n) else Char.ofNat (55 + n)

/-- UTF-8 bytes of a code point. -/
def utf8Bytes (n : Nat) : List Nat :=
  if n < 128 then [n]
  else if n < 2048 then [192 + n / 64, 128 + n % 64]
  else if n < 65536 then [224 + n / 4096, 128 + (n / 64) % 64, 128 + n % 64]
  else [240 + n / 262144, 128 + (n / 4096) % 64, 128 + (n / 64) % 64, 128 + n % 64]

/-- `urllib.parse.quote` on one character (default safe set includes `/`). -/
def quoteChar (c : Char) : List Char :=
  if c.isAlphanum || c == '_' || c == '.' || c == '-' || c == '~' || c == '/' then [c]
  else (utf8Bytes c.toNat).foldr
    (fun b acc => '%' :: hexDigitU (b / 16) :: hexDigitU (b % 16) :: acc) []

/-- `urllib.parse.quote(s)` for a string. -/
def quoteStr (s : String) : String :=
  String.mk (s.data.foldr (fun c acc => quoteChar c ++ acc) [])

/-- `urllib.parse.quote(v)`: raises unless the argument is a string. -/
def pyQuote : Val → Option String
  | .str s => some (quoteStr s)
  | _ => none

/- ## Option-monad mapM with good reasoning properties. -/

/-- Exception-propagating map over the items of a container: one raised
exception aborts the whole extraction, exactly as in the Python loops. -/
def omapM {α β : Type} (f : α → Option β) : List α → Option (List β)
  | [] => some []
  | x :: xs => do
    let y ← f x
    let ys ← omapM f xs
    pure (y :: ys)

/- ## parse_info_string (main.py lines 14-30; identical in main_2.py 17-27) -/

/-- `parse_info_string`: regex-extract `SCORE:<float>`, then split the string
on commas and record every `key:value` token that has a colon and no brace,
lower-casing the key. A raised exception (non-string truthy input, or an
unparsable float) is `none`. -/
def parse_info_string (info : Val) : Option (List (String × Val)) :=
  if !info.truthy then some []
  else
    match info with
    | .str s => do
      let base ←
        match searchNumAfter "SCORE:".data s.data with
        | some g => do
          let q ← pyFloat g
          pure (dinsert [] "score" (.float q))
        | none => pure []
      let parts := splitChar ',' s.data
      pure (parts.foldl
        (fun acc part =>
          if charIn ':' part && !charIn lbraceChar part then
            let kv := splitOnceChar ':' part
            dinsert acc (String.mk (lowerChars (trimChars kv.1)))
              (.str (String.mk (trimChars kv.2)))
          else acc)
        base)
    | _ => none

/- ## The canonical record produced by the extractors.

The Python extractors build dicts; fields that some extractors omit
altogether (price, old_price, discount) are `Option` fields defaulting to
`none` = key absent.  A field whose Python value may be `None` is a `Val`
(with `Val.null` for `None`) or an `Option String` where the code only ever
stores a string or `None`. -/

structure ProductRecord where
  name : Val
  sold_count : Val
  label : String
  product_id : Val
  score : Val
  images : List String
  primary_image : Option String
  type : String
  url : String
  price : Option Rat := none
  old_price : Option Rat := none
  discount : Option Val := none

/-- The category extractor produces a differently-shaped record. -/
structure CategoryRecord where
  name : Val
  id : Val
  image : Option String
  url : String

/-- CDN path prefix used for every image URL. -/
def cdnBase : String := "https://down-id.img.susercontent.com/file/"

/-- `data.get('data', {}).get(key, [])`: the container walk shared by all
five extractors. -/
def container (data : Val) (key : String) : Option Val := do
  let d ← data.getDflt "data" (.dict [])
  d.getDflt key (.list [])

/- ## extract_shopee_products (main.py lines 32-62) -/

/-- Body of the inner `for item in top_products` loop of
`extract_shopee_products`; a non-dict item raises on its first `.get`. -/
def topItem : Val → Option ProductRecord
  | .dict item => do
    let info_meta ← parse_info_string (dgetD item "info" (.str ""))
    let image_ids ← (dgetD item "images" (.list [])).iter
    let image_urls := image_ids.map (fun v => cdnBase ++ v.pyStr)
    let cat_id := pyOr (dget item "knodeid") (dget item "key")
    let encoded ← if cat_id.truthy then pyQuote cat_id else pure ""
    pure { name := dget item "name", sold_count := dget item "count",
           label := "Top Product",
           product_id := dget item "key",
           score := (lookupKey info_meta "score").getD .null,
           images := image_urls,
           primary_image := image_urls.head?,
           type := "Top Product",
           url := "https://shopee.co.id/top_products?catId=" ++ encoded }
  | _ => none

/-- Body of the outer `for section in sections` loop: sections whose
`top_product` entry is falsy contribute nothing. -/
def topSection (sec : Val) : Option (List ProductRecord) := do
  let sd ← sec.getDflt "data" (.dict [])
  let tp ← sd.getS "top_product"
  if tp.truthy then do
    let items ← tp.iter
    omapM topItem items
  else pure []

/-- `extract_shopee_products`. -/
def extract_shopee_products (data : Val) : Option (List ProductRecord) := do
  let sv ← container data "sections"
  let sections ← sv.iter
  let lists ← omapM topSection sections
  pure lists.flatten

/- ## extract_suggestions (main.py lines 64-94) -/

/-- Score extraction from the `tracking` string:
`re.search(r'"rank_score":([\d.]+)', tracking)`; raises when `tracking` is
not a string or the matched group is not a valid float. -/
def sugScore : Val → Option Val
  | .str s =>
    match searchNumAfter "\"rank_score\":".data s.data with
    | some g => (pyFloat g).map Val.float
    | none => some .null
  | _ => none

/-- Body of the `for q in queries` loop of `extract_suggestions`.  Note
`q.get('item_ids', [None])[0]`: the `[None]` default only applies when the
key is absent; a present-but-empty list raises IndexError. -/
def sugItem : Val → Option ProductRecord
  | .dict q => do
    let text := dgetD q "text" (.str "")
    let imageV := dget q "image"
    let img_id ←
      if imageV.truthy then pure imageV
      else
        let imagesV := dget q "images"
        if imagesV.truthy then pyIndex0 imagesV else pure Val.null
    let primary_image :=
      if img_id.truthy then some (cdnBase ++ img_id.pyStr) else none
    let encoded ← pyQuote text
    let score ← sugScore (dgetD q "tracking" (.str ""))
    let pid ← pyIndex0 (dgetD q "item_ids" (.list [Val.null]))
    pure { name := text, sold_count := .null, label := "Suggestion",
           product_id := pid, score := score,
           images := match primary_image with | some s => [s] | none => [],
           primary_image := primary_image,
           type := "Suggestion",
           url := "https://shopee.co.id/search?keyword=" ++ encoded }
  | _ => none

/-- `extract_suggestions`. -/
def extract_suggestions (data : Val) : Option (List ProductRecord) := do
  let qv ← container data "queries"
  let queries ← qv.iter
  omapM sugItem queries

/- ## extract_categories (main.py lines 96-108) -/

/-- Body of the `for c in cat_list` loop: only `level == 1` entries
contribute a record. -/
def catEntry : Val → Option (List CategoryRecord)
  | .dict c =>
    if pyEqInt1 (dget c "level") then
      let catidV := dget c "catid"
      let imgV := dget c "image"
      match dgetD c "display_name" (.str "") with
      | .str s =>
        pure [{ name := pyOr (dget c "display_name") (dget c "name"),
                id := catidV,
                image := if imgV.truthy then some (cdnBase ++ imgV.pyStr) else none,
                url := "https://shopee.co.id/" ++
                  quoteStr (String.mk (s.data.map (fun ch => if ch == ' ' then '-' else ch))) ++
                  "-cat." ++ catidV.pyStr }]
      | _ => none
    else pure []
  | _ => none

/-- `extract_categories`. -/
def extract_categories (data : Val) : Option (List CategoryRecord) := do
  let cv ← container data "category_list"
  let cat_list ← cv.iter
  let lists ← omapM catEntry cat_list
  pure lists.flatten

/- ## extract_flash_sales (main.py lines 110-145) -/

/-- Body of the `for it in items` loop of `extract_flash_sales`;
`it.get('item_rating', {}).get('rating_star')` raises when a present
`item_rating` value is not a dict. -/
def flashItem : Val → Option ProductRecord
  | .dict it => do
    let price ← pyDiv100000 (pyOr (dget it "price") (.int 0))
    let old_price ← pyDiv100000 (pyOr (dget it "price_before_discount") (.int 0))
    let imgV := dget it "image"
    let primary_image :=
      if imgV.truthy then some (cdnBase ++ imgV.pyStr) else none
    let itemid := (dget it "itemid").pyStr
    let shopid := (dget it "shopid").pyStr
    let scoreV ← (dgetD it "item_rating" (.dict [])).getS "rating_star"
    pure { name := dget it "name", sold_count := dget it "historical_sold",
           label := "Flash Sale",
           product_id := .str (shopid ++ "." ++ itemid),
           score := scoreV,
           images := match primary_image with | some s => [s] | none => [],
           primary_image := primary_image,
           type := "Flash Sale",
           url := "https://shopee.co.id/product-i." ++ shopid ++ "." ++ itemid,
           price := some price, old_price := some old_price,
           discount := some (dgetD it "discount" (.str "")) }
  | _ => none

/-- `extract_flash_sales`. -/
def extract_flash_sales (data : Val) : Option (List ProductRecord) := do
  let iv ← container data "items"
  let items ← iv.iter
  omapM flashItem items

/- ## extract_daily_discover (main.py lines 147-186) -/

/-- Body of the per-item part of `extract_daily_discover` (reached when the
feed has type `item_card` and a truthy `item_card.item`); the nested
`item_card_display_price` object raises on its `.get` calls when a present
value is not a dict. -/
def discoverItem : Val → Option ProductRecord
  | .dict it => do
    let dp := dgetD it "item_card_display_price" (.dict [])
    let priceV ← dp.getS "price"
    let price ← pyDiv100000 (pyOr priceV (.int 0))
    let oldV ← dp.getS "strikethrough_price"
    let old_price ← pyDiv100000 (pyOr oldV (.int 0))
    let discountV ← dp.getDflt "discount_text" (.str "")
    let imgV := dget it "image"
    let primary_image :=
      if imgV.truthy then some (cdnBase ++ imgV.pyStr) else none
    let itemid := (dget it "itemid").pyStr
    let shopid := (dget it "shopid").pyStr
    let scoreV ← (dgetD it "item_rating" (.dict [])).getS "rating_star"
    let imgs3 ← pySlice3 (dgetD it "images" (.list []))
    pure { name := dget it "name",
           sold_count := pyOr (dget it "historical_sold") (.int 0),
           label := "Daily Discover",
           product_id := .str (shopid ++ "." ++ itemid),
           score := scoreV,
           images := imgs3.map (fun v => cdnBase ++ v.pyStr),
           primary_image := primary_image,
           type := "Daily Discover",
           url := "https://shopee.co.id/product-i." ++ shopid ++ "." ++ itemid,
           price := some price, old_price := some old_price,
           discount := some discountV }
  | _ => none

/-- Body of the `for feed in feeds` loop: only `item_card` feeds with a
truthy nested item contribute a record. -/
def discoverFeed (feed : Val) : Option (List ProductRecord) := do
  let t ← feed.getS "type"
  if pyEqStr t "item_card" then do
    let ic ← feed.getDflt "item_card" (.dict [])
    let it ← ic.getDflt "item" (.dict [])
    if it.truthy then do
      let r ← discoverItem it
      pure [r]
    else pure []
  else pure []

/-- `extract_daily_discover`. -/
def extract_daily_discover (data : Val) : Option (List ProductRecord) := do
  let fv ← container data "feeds"
  let feeds ← fv.iter
  let lists ← omapM discoverFeed feeds
  pure lists.flatten

/- ## load_json_data (main.py lines 6-12)

The file-system read is the external input: `none` models an absent or
unreadable or unparsable file (the `except` branch), `some v` a parsed
JSON document. -/

/-- `load_json_data`: any read or parse failure degrades to `{}`. -/
def load_json_data : Option Val → Val
  | none => .dict []
  | some v => v

/- ## The duplicated extractors of main_2.py (lines 92-144), transcribed
independently from that file. -/

namespace M2

/-- Body of the `for it in items` loop of main_2.py `extract_flash_sales`. -/
def flashItem : Val → Option ProductRecord
  | .dict it => do
    let price ← pyDiv100000 (pyOr (dget it "price") (.int 0))
    let old_price ← pyDiv100000 (pyOr (dget it "price_before_discount") (.int 0))
    let img_id := dget it "image"
    let primary_image :=
      if img_id.truthy then some (cdnBase ++ img_id.pyStr) else none
    let itemid := (dget it "itemid").pyStr
    let shopid := (dget it "shopid").pyStr
    let scoreV ← (dgetD it "item_rating" (.dict [])).getS "rating_star"
    pure { name := dget it "name", sold_count := dget it "historical_sold",
           label := "Flash Sale",
           product_id := .str (shopid ++ "." ++ itemid),
           score := scoreV,
           images := match primary_image with | some s => [s] | none => [],
           primary_image := primary_image,
           type := "Flash Sale",
           url := "https://shopee.co.id/product-i." ++ shopid ++ "." ++ itemid,
           price := some price, old_price := some old_price,
           discount := some (dgetD it "discount" (.str "")) }
  | _ => none

/-- main_2.py `extract_flash_sales`. -/
def extract_flash_sales (data : Val) : Option (List ProductRecord) := do
  let iv ← container data "items"
  let items ← iv.iter
  omapM flashItem items

/-- Per-item body of main_2.py `extract_daily_discover` (its nested price
object is locally named `dp` there). -/
def discoverItem : Val → Option ProductRecord
  | .dict it => do
    let dp := dgetD it "item_card_display_price" (.dict [])
    let priceV ← dp.getS "price"
    let price ← pyDiv100000 (pyOr priceV (.int 0))
    let oldV ← dp.getS "strikethrough_price"
    let old_price ← pyDiv100000 (pyOr oldV (.int 0))
    let discountV ← dp.getDflt "discount_text" (.str "")
    let imgV := dget it "image"
    let primary_image :=
      if imgV.truthy then some (cdnBase ++ imgV.pyStr) else none
    let itemid := (dget it "itemid").pyStr
    let shopid := (dget it "shopid").pyStr
    let scoreV ← (dgetD it "item_rating" (.dict [])).getS "rating_star"
    let imgs3 ← pySlice3 (dgetD it "images" (.list []))
    pure { name := dget it "name",
           sold_count := pyOr (dget it "historical_sold") (.int 0),
           label := "Daily Discover",
           product_id := .str (shopid ++ "." ++ itemid),
           score := scoreV,
           images := imgs3.map (fun v => cdnBase ++ v.pyStr),
           primary_image := primary_image,
           type := "Daily Discover",
           url := "https://shopee.co.id/product-i." ++ shopid ++ "." ++ itemid,
           price := some price, old_price := some old_price,
           discount := some discountV }
  | _ => none

/-- Feed filter of main_2.py `extract_daily_discover`. -/
def discoverFeed (feed : Val) : Option (List ProductRecord) := do
  let t ← feed.getS "type"
  if pyEqStr t "item_card" then do
    let ic ← feed.getDflt "item_card" (.dict [])
    let it ← ic.getDflt "item" (.dict [])
    if it.truthy then do
      let r ← discoverItem it
      pure [r]
    else pure []
  else pure []

/-- main_2.py `extract_daily_discover`. -/
def extract_daily_discover (data : Val) : Option (List ProductRecord) := do
  let fv ← container data "feeds"
  let feeds ← fv.iter
  let lists ← omapM discoverFeed feeds
  pure lists.flatten

end M2

/- ## cek_shopee.py: the session harvester.

`handle_response` (lines 56-79) mutates a shared `harvested_data` dict and
an asyncio.Event; the observable state is embedded as `HarvestState` and the
callback as a state-transition function on it.  Writing the side artifact
(`response_shopee.json`) sits in a try/except whose failure is non-fatal and
does not touch the state, so it is not part of the state transition. -/

/-- One observed network response: its URL, its request headers, and the
context cookie jar at observation time (flattened name to value). -/
structure RespEv where
  url : String
  headers : List (String × String)
  cookies : List (String × String)
deriving DecidableEq

/-- The harvested token state plus the CaptureSignal
(`request_captured` event). -/
structure HarvestState where
  url : Option String
  headers : List (String × String)
  cookies : List (String × String)
  captured : Bool
deriving DecidableEq

/-- `harvested_data` before any response arrives, with the event unset. -/
def initState : HarvestState :=
  { url := none, headers := [], cookies := [], captured := false }

/-- Python falsiness of `harvested_data["url"]` (initially `None`). -/
def urlFalsy : Option String → Bool
  | none => true
  | some s => s == ""

/-- The target API path fragment tested by `handle_response`. -/
def targetFrag : String := "api/v4/recommend/recommend"

/-- The bundle discriminator tested by `handle_response`. -/
def bundleFrag : String := "bundle=top_products_homepage"

/-- The state after capturing response `r`: url, headers and cookie snapshot
are overwritten and the CaptureSignal is set. -/
def capturedFrom (r : RespEv) : HarvestState :=
  { url := some r.url, headers := r.headers, cookies := r.cookies,
    captured := true }

/-- `handle_response` (cek_shopee.py lines 56-79). -/
def handle_response (st : HarvestState) (r : RespEv) : HarvestState :=
  if strContains targetFrag r.url then
    if strContains bundleFrag r.url || urlFalsy st.url then capturedFrom r
    else st
  else st

/-- The state after a run observing the responses `rs` in order. -/
def runResponses (rs : List RespEv) : HarvestState :=
  rs.foldl handle_response initState

/- ## cek_shopee.py lines 94-103: the scroll stimulation loop.

The loop body scrolls by `600 + i*200`, sleeps, and re-checks the
CaptureSignal at the top of each iteration.  `isSet i` is the value the
`request_captured.is_set()` poll reads at the top of iteration `i`; the
returned list collects the injected scroll offsets in order. -/

/-- `for i in range(n)` scroll loop starting at step `i`. -/
def scrollLoop : Nat → Nat → (Nat → Bool) → List Nat
  | 0, _, _ => []
  | n + 1, i, isSet =>
    if isSet i then [] else (600 + i * 200) :: scrollLoop n (i + 1) isSet

/-- The full loop: `for i in range(15)`. -/
def scrollRun (isSet : Nat → Bool) : List Nat :=
  scrollLoop 15 0 isSet

/- ## fetch_direct.py: the replay client (lines 22-47).

The network response is the external input: `status` and raw `text`, plus
`jsonBody` (`none` when `response.json()` raises).  The previously persisted
`response_shopee.json` artifact is threaded as an `Option Val`; the function
returns the artifact state after the call together with the reported
outcome.  The `except` clause catches any exception and leaves the artifact
untouched. -/

/-- External HTTP response handed to the replay client. -/
structure HttpResponse where
  status : Nat
  text : String
  jsonBody : Option Val

/-- What `fetch_shopee_direct` reports. -/
inductive FetchOutcome where
  | success (count : Nat)
  | httpError (status : Nat) (excerpt : String)
  | exn
deriving DecidableEq

/-- `response.text[:200]`. -/
def pyTruncate (s : String) (n : Nat) : String :=
  String.mk (s.data.take n)

/-- The product-count walk over `data.sections[].data.top_product`
(fetch_direct.py lines 29-33); any shape mismatch raises. -/
def countTopProducts (d : Val) : Option Nat := do
  let sv ← container d "sections"
  let sections ← sv.iter
  sections.foldlM
    (fun acc s => do
      let sd ← s.getDflt "data" (.dict [])
      let tp ← sd.getDflt "top_product" (.list [])
      let n ← pyLen tp
      pure (acc + n))
    0

/-- `fetch_shopee_direct` after receiving `resp`, with `artifact` the
previously persisted capture. -/
def fetch_shopee_direct (resp : HttpResponse) (artifact : Option Val) :
    Option Val × FetchOutcome :=
  if resp.status == 200 then
    match resp.jsonBody with
    | none => (artifact, .exn)
    | some d =>
      match countTopProducts d with
      | none => (artifact, .exn)
      | some n => (some d, .success n)
  else (artifact, .httpError resp.status (pyTruncate resp.text 200))

/- ## Concrete payloads and expected records used by the witnesses and
counterexamples below. -/

/-- A daily-discover item with an `images` list but no singular `image`
field. -/
def c1item : Val := .dict [("images", .list [.str "imgA", .str "imgB"])]

/-- A daily-discover feed wrapping `c1item`. -/
def c1feed : Val :=
  .dict [("type", .str "item_card"), ("item_card", .dict [("item", c1item)])]

/-- The daily-discover payload carrying `c1feed`. -/
def c1payload : Val :=
  .dict [("data", .dict [("feeds", .list [c1feed])])]

/-- The record `extract_daily_discover` produces for `c1payload`. -/
def c1rec : ProductRecord :=
  { name := .null,
    sold_count := .int 0,
    label := "Daily Discover",
    product_id := .str "None.None",
    score := .null,
    images := [cdnBase ++ "imgA", cdnBase ++ "imgB"],
    primary_image := none,
    type := "Daily Discover",
    url := "https://shopee.co.id/product-i.None.None",
    price := some (((0 : Int) : Rat) / 100000),
    old_price := some (((0 : Int) : Rat) / 100000),
    discount := some (.str "") }

/-- A minimal top-product item carrying one image. -/
def c1topItem : Val := .dict [("images", .list [.str "t1"]), ("key", .str "k")]

/-- A section wrapping `c1topItem`. -/
def c1topSec : Val :=
  .dict [("data", .dict [("top_product", .list [c1topItem])])]

/-- A minimal top-product payload with one item carrying one image. -/
def c1topData : Val :=
  .dict [("data", .dict [("sections", .list [c1topSec])])]

/-- The record `extract_shopee_products` produces for `c1topData`. -/
def c1topRec : ProductRecord :=
  { name := .null, sold_count := .null, label := "Top Product",
    product_id := .str "k", score := .null,
    images := [cdnBase ++ "t1"],
    primary_image := some (cdnBase ++ "t1"),
    type := "Top Product",
    url := "https://shopee.co.id/top_products?catId=k" }

/-- A minimal suggestion payload with one imageless query. -/
def c1sugData : Val :=
  .dict [("data", .dict [("queries", .list [.dict [("text", .str "ab")]])])]

/-- The record `extract_suggestions` produces for `c1sugData`. -/
def c1sugRec : ProductRecord :=
  { name := .str "ab", sold_count := .null, label := "Suggestion",
    product_id := .null, score := .null,
    images := [], primary_image := none,
    type := "Suggestion",
    url := "https://shopee.co.id/search?keyword=ab" }

/-- A minimal flash-sale payload with one item carrying only an image. -/
def c1flashData : Val :=
  .dict [("data", .dict [("items", .list [.dict [("image", .str "f1")]])])]

/-- The record `extract_flash_sales` produces for `c1flashData`. -/
def c1flashRec : ProductRecord :=
  { name := .null, sold_count := .null, label := "Flash Sale",
    product_id := .str "None.None", score := .null,
    images := [cdnBase ++ "f1"],
    primary_image := some (cdnBase ++ "f1"),
    type := "Flash Sale",
    url := "https://shopee.co.id/product-i.None.None",
    price := some (((0 : Int) : Rat) / 100000),
    old_price := some (((0 : Int) : Rat) / 100000),
    discount := some (.str "") }

/-- A flash-sale payload containing one item with every optional field
absent. -/
def c3payload : Val :=
  .dict [("data", .dict [("items", .list [.dict []])])]

/-- The record `extract_flash_sales` produces for the empty item. -/
def c3rec : ProductRecord :=
  { name := .null, sold_count := .null, label := "Flash Sale",
    product_id := .str "None.None", score := .null,
    images := [], primary_image := none,
    type := "Flash Sale",
    url := "https://shopee.co.id/product-i.None.None",
    price := some (((0 : Int) : Rat) / 100000),
    old_price := some (((0 : Int) : Rat) / 100000),
    discount := some (.str "") }

/-- A raw item whose only key is `itemid` (all optional fields absent). -/
def c3item : Val := .dict [("itemid", .int 7)]

/-- `flashItem c3item`. -/
def c3flashRec : ProductRecord :=
  { name := .null, sold_count := .null, label := "Flash Sale",
    product_id := .str "None.7", score := .null,
    images := [], primary_image := none,
    type := "Flash Sale",
    url := "https://shopee.co.id/product-i.None.7",
    price := some (((0 : Int) : Rat) / 100000),
    old_price := some (((0 : Int) : Rat) / 100000),
    discount := some (.str "") }

/-- `discoverItem c3item`. -/
def c3discRec : ProductRecord :=
  { name := .null, sold_count := .int 0, label := "Daily Discover",
    product_id := .str "None.7", score := .null,
    images := [], primary_image := none,
    type := "Daily Discover",
    url := "https://shopee.co.id/product-i.None.7",
    price := some (((0 : Int) : Rat) / 100000),
    old_price := some (((0 : Int) : Rat) / 100000),
    discount := some (.str "") }

/-- A well-formed query. -/
def c5q1 : Val := .dict [("text", .str "sepatu")]

/-- The malformed query: a present-but-empty `item_ids` list. -/
def c5q2 : Val := .dict [("text", .str "tas"), ("item_ids", .list [])]

/-- Another well-formed query. -/
def c5q3 : Val := .dict [("text", .str "kaos")]

/-- A suggestion payload whose middle query carries a present-but-empty
`item_ids` list, between two well-formed queries. -/
def c5payload : Val :=
  .dict [("data", .dict [("queries", .list [c5q1, c5q2, c5q3])])]

/-- A flash-sale item whose raw price is the documented example 12345600. -/
def c6item : Val := .dict [("price", .int 12345600)]

/-- `flashItem c6item`. -/
def c6rec : ProductRecord :=
  { name := .null, sold_count := .null, label := "Flash Sale",
    product_id := .str "None.None", score := .null,
    images := [], primary_image := none,
    type := "Flash Sale",
    url := "https://shopee.co.id/product-i.None.None",
    price := some (((12345600 : Int) : Rat) / 100000),
    old_price := some (((0 : Int) : Rat) / 100000),
    discount := some (.str "") }

/-- A previously persisted capture artifact. -/
def c7prev : Val := .dict [("stale", .bool true)]

/-- A matching response carrying the bundle discriminator. -/
def respA : RespEv :=
  { url := "https://s/api/v4/recommend/recommend?bundle=top_products_homepage",
    headers := [("user-agent", "Mozilla")], cookies := [("SPC_F", "x")] }

/-- A matching response without the bundle discriminator. -/
def respB : RespEv :=
  { url := "https://s/api/v4/recommend/recommend?offset=20",
    headers := [("user-agent", "Other")], cookies := [] }

/-- A payload whose `sections` container is present but empty. -/
def c8payload : Val :=
  .dict [("data", .dict [("sections", .list [])])]

/- ## Helper lemmas -/

theorem obind_some {α β : Type} {x : Option α} {f : α → Option β} {b : β}
    (h : x >>= f = some b) : ∃ a, x = some a ∧ f a = some b := by
  cases x with
  | none => exact Option.noConfusion h
  | some a => exact ⟨a, rfl, h⟩

theorem omapM_mem {α β : Type} {f : α → Option β} :
    ∀ {xs : List α} {ys : List β}, omapM f xs = some ys →
      ∀ {y : β}, y ∈ ys → ∃ x, x ∈ xs ∧ f x = some y := by
  intro xs
  induction xs with
  | nil =>
    intro ys h y hy
    rw [omapM] at h
    cases h
    simp at hy
  | cons x xs ih =>
    intro ys h y hy
    rw [omapM] at h
    obtain ⟨b, hb, h⟩ := obind_some h
    obtain ⟨bs, hbs, h⟩ := obind_some h
    cases h
    rcases List.mem_cons.mp hy with rfl | hmem
    · exact ⟨x, List.mem_cons_self x xs, hb⟩
    · obtain ⟨x2, hx2, hfx⟩ := ih hbs hmem
      exact ⟨x2, List.mem_cons_of_mem _ hx2, hfx⟩

theorem mem_extract_top {data : Val} {recs : List ProductRecord}
    {r : ProductRecord} (h : extract_shopee_products data = some recs)
    (hr : r ∈ recs) : ∃ it, topItem it = some r := by
  simp only [extract_shopee_products] at h
  obtain ⟨sv, _, h⟩ := obind_some h
  obtain ⟨sections, _, h⟩ := obind_some h
  obtain ⟨lists, hlists, h⟩ := obind_some h
  cases h
  obtain ⟨l, hl, hrl⟩ := List.mem_flatten.mp hr
  obtain ⟨sec, _, hsec⟩ := omapM_mem hlists hl
  simp only [topSection] at hsec
  obtain ⟨sd, _, hsec⟩ := obind_some hsec
  obtain ⟨tp, _, hsec⟩ := obind_some hsec
  by_cases htp : tp.truthy
  · rw [if_pos htp] at hsec
    obtain ⟨items, _, hsec⟩ := obind_some hsec
    obtain ⟨x, _, hx⟩ := omapM_mem hsec hrl
    exact ⟨x, hx⟩
  · rw [if_neg htp] at hsec
    cases hsec
    simp at hrl

theorem mem_extract_sug {data : Val} {recs : List ProductRecord}
    {r : ProductRecord} (h : extract_suggestions data = some recs)
    (hr : r ∈ recs) : ∃ q, sugItem q = some r := by
  simp only [extract_suggestions] at h
  obtain ⟨qv, _, h⟩ := obind_some h
  obtain ⟨queries, _, h⟩ := obind_some h
  obtain ⟨x, _, hx⟩ := omapM_mem h hr
  exact ⟨x, hx⟩

theorem mem_extract_flash {data : Val} {recs : List ProductRecord}
    {r : ProductRecord} (h : extract_flash_sales data = some recs)
    (hr : r ∈ recs) : ∃ it, flashItem it = some r := by
  simp only [extract_flash_sales] at h
  obtain ⟨iv, _, h⟩ := obind_some h
  obtain ⟨items, _, h⟩ := obind_some h
  obtain ⟨x, _, hx⟩ := omapM_mem h hr
  exact ⟨x, hx⟩

theorem head_opt_list (p : Option String) :
    (match p with | some s => [s] | none => ([] : List String)).head? = p := by
  cases p <;> rfl

theorem topItem_primary {it : Val} {r : ProductRecord}
    (h : topItem it = some r) : r.primary_image = r.images.head? := by
  cases it with
  | dict item =>
    simp only [topItem] at h
    obtain ⟨m, _, h⟩ := obind_some h
    obtain ⟨ids, _, h⟩ := obind_some h
    by_cases hc : (pyOr (dget item "knodeid") (dget item "key")).truthy
    · rw [if_pos hc] at h
      obtain ⟨enc, _, h⟩ := obind_some h
      cases h
      rfl
    · rw [if_neg hc] at h
      obtain ⟨enc, _, h⟩ := obind_some h
      cases h
      rfl
  | null => exact Option.noConfusion h
  | bool b => exact Option.noConfusion h
  | int n => exact Option.noConfusion h
  | float q => exact Option.noConfusion h
  | str s => exact Option.noConfusion h
  | list xs => exact Option.noConfusion h

theorem sugItem_primary {q : Val} {r : ProductRecord}
    (h : sugItem q = some r) : r.primary_image = r.images.head? := by
  cases q with
  | dict qd =>
    simp only [sugItem] at h
    by_cases h1 : (dget qd "image").truthy
    · rw [if_pos h1] at h
      obtain ⟨imgid, _, h⟩ := obind_some h
      obtain ⟨enc, _, h⟩ := obind_some h
      obtain ⟨sc, _, h⟩ := obind_some h
      obtain ⟨pid, _, h⟩ := obind_some h
      cases h
      exact (head_opt_list _).symm
    · rw [if_neg h1] at h
      by_cases h2 : (dget qd "images").truthy
      · rw [if_pos h2] at h
        obtain ⟨imgid, _, h⟩ := obind_some h
        obtain ⟨enc, _, h⟩ := obind_some h
        obtain ⟨sc, _, h⟩ := obind_some h
        obtain ⟨pid, _, h⟩ := obind_some h
        cases h
        exact (head_opt_list _).symm
      · rw [if_neg h2] at h
        obtain ⟨imgid, _, h⟩ := obind_some h
        obtain ⟨enc, _, h⟩ := obind_some h
        obtain ⟨sc, _, h⟩ := obind_some h
        obtain ⟨pid, _, h⟩ := obind_some h
        cases h
        exact (head_opt_list _).symm
  | null => exact Option.noConfusion h
  | bool b => exact Option.noConfusion h
  | int n => exact Option.noConfusion h
  | float q2 => exact Option.noConfusion h
  | str s => exact Option.noConfusion h
  | list xs => exact Option.noConfusion h

theorem flashItem_primary {it : Val} {r : ProductRecord}
    (h : flashItem it = some r) : r.primary_image = r.images.head? := by
  cases it with
  | dict itd =>
    simp only [flashItem] at h
    obtain ⟨p, _, h⟩ := obind_some h
    obtain ⟨op, _, h⟩ := obind_some h
    obtain ⟨sc, _, h⟩ := obind_some h
    cases h
    by_cases ht : (dget itd "image").truthy
    · simp only [if_pos ht]
      rfl
    · simp only [if_neg ht]
      rfl
  | null => exact Option.noConfusion h
  | bool b => exact Option.noConfusion h
  | int n => exact Option.noConfusion h
  | float q => exact Option.noConfusion h
  | str s => exact Option.noConfusion h
  | list xs => exact Option.noConfusion h

/- ## Claims -/

/-- C10: for every input payload the duplicated flash-sale and
daily-discover extractors of main.py and main_2.py are extensionally equal:
they return exactly the same record sequence. -/
theorem C10_duplicated_extractors_equal :
    ∀ data : Val,
      extract_flash_sales data = M2.extract_flash_sales data ∧
      extract_daily_discover data = M2.extract_daily_discover data :=
  fun _ => ⟨rfl, rfl⟩

/-- C2: on the info string "SCORE:4.8,other:{nested}" the parser first
stores the regex-extracted float 4.8 under the key score, but the
comma/colon loop then overwrites that entry with the STRING "4.8" (the
token "SCORE:4.8" itself has a colon and no brace); the brace-bearing token
contributes nothing.  The resulting map therefore holds the string "4.8"
rather than the number 4.8: the second half of the claim holds but the
first fails, contradicting the code's own downstream use, which formats a
truthy score with a float format specifier. -/
theorem C2_score_overwritten_by_string :
    parse_info_string (.str "SCORE:4.8,other:\x7bnested\x7d") =
        some [("score", Val.str "4.8")] ∧
      Val.str "4.8" ≠ Val.float 4.8 :=
  ⟨rfl, fun h => Val.noConfusion h⟩

/-- C5: a single malformed item is NOT contained per-item: the middle query
of `c5payload` carries a present-but-empty item_ids list, so
`q.get('item_ids', [None])[0]` raises IndexError and the whole extraction
aborts — the two well-formed queries around it produce no records either,
refuting the claim that extract_suggestions processes all queries. -/
theorem C5_empty_item_ids_aborts_extraction :
    extract_suggestions c5payload = none := rfl

/-- C1 counterexample: a daily-discover item with a non-empty images list
but no singular image field yields a record whose images sequence is
non-empty while primary_image is absent, refuting the claimed invariant for
extract_daily_discover (its primary_image is derived from the singular
image field, not from images[0]). -/
theorem C1_daily_discover_counterexample :
    extract_daily_discover c1payload = some [c1rec] ∧
    c1rec.images = [cdnBase ++ "imgA", cdnBase ++ "imgB"] ∧
    c1rec.primary_image = none :=
  ⟨rfl, rfl, rfl⟩

/-- C1 (amended): the primary_image invariant does hold for the
top-product, suggestion and flash-sale extractors: every record they
produce satisfies primary_image = images.head? — the first image when the
sequence is non-empty and absent when it is empty.  (The daily-discover
extractor is excluded: see the counterexample.) -/
theorem C1_primary_image_head :
    (∀ (data : Val) (recs : List ProductRecord) (r : ProductRecord),
      extract_shopee_products data = some recs → r ∈ recs →
      r.primary_image = r.images.head?) ∧
    (∀ (data : Val) (recs : List ProductRecord) (r : ProductRecord),
      extract_suggestions data = some recs → r ∈ recs →
      r.primary_image = r.images.head?) ∧
    (∀ (data : Val) (recs : List ProductRecord) (r : ProductRecord),
      extract_flash_sales data = some recs → r ∈ recs →
      r.primary_image = r.images.head?) := by
  refine ⟨?_, ?_, ?_⟩ <;> intro data recs r h hr
  · obtain ⟨it, hit⟩ := mem_extract_top h hr
    exact topItem_primary hit
  · obtain ⟨q, hq⟩ := mem_extract_sug h hr
    exact sugItem_primary hq
  · obtain ⟨it, hit⟩ := mem_extract_flash h hr
    exact flashItem_primary hit

/-- Witness for C1_primary_image_head: concrete one-record payloads for the
three extractors. -/
theorem C1_primary_image_head_witness :
    (c1topRec.primary_image = c1topRec.images.head?) ∧
    (c1sugRec.primary_image = c1sugRec.images.head?) ∧
    (c1flashRec.primary_image = c1flashRec.images.head?) :=
  ⟨C1_primary_image_head.1 c1topData [c1topRec] c1topRec rfl
      (List.mem_singleton.mpr rfl),
   C1_primary_image_head.2.1 c1sugData [c1sugRec] c1sugRec rfl
      (List.mem_singleton.mpr rfl),
   C1_primary_image_head.2.2 c1flashData [c1flashRec] c1flashRec rfl
      (List.mem_singleton.mpr rfl)⟩

/-- `historical key absent` evaluation: a missing price divided out. -/
theorem pyDiv_null_or_zero : pyDiv100000 (pyOr .null (.int 0)) = some 0 := by
  have h : pyDiv100000 (pyOr .null (.int 0)) =
      some (((0 : Int) : Rat) / 100000) := rfl
  rw [h]
  norm_num

/-- `(n or 0) / 100000` keeps the raw integer value. -/
theorem pyOr_int_zero (n : Int) : pyOr (.int n) (.int 0) = .int n := by
  by_cases hn : n = 0
  · subst hn; rfl
  · have ht : (Val.int n).truthy = true := by
      simp [Val.truthy, hn]
    simp [pyOr, ht]

theorem hasKey_false_lookup {kvs : List (String × Val)} {k : String}
    (h : Val.hasKey (.dict kvs) k = false) : lookupKey kvs k = none := by
  cases hlk : lookupKey kvs k with
  | none => rfl
  | some v =>
    rw [Val.hasKey, hlk] at h
    exact Bool.noConfusion h

theorem dget_of_hasKey_false {kvs : List (String × Val)} {k : String}
    (h : Val.hasKey (.dict kvs) k = false) : dget kvs k = .null := by
  rw [dget, dgetD, hasKey_false_lookup h]
  rfl

theorem dgetD_of_hasKey_false {kvs : List (String × Val)} {k : String}
    {d : Val} (h : Val.hasKey (.dict kvs) k = false) : dgetD kvs k d = d := by
  rw [dgetD, hasKey_false_lookup h]
  rfl

/-- C3 counterexample: flash-sale extraction of an item with every optional
field absent produces a record whose price and old_price are present and
zero and whose discount is present and the empty string (and whose
sold_count is None, not 0), refuting "absent optional fields become absent
... except counts, which default to 0". -/
theorem C3_absent_fields_counterexample :
    extract_flash_sales c3payload = some [c3rec] ∧
    c3rec.price = some 0 ∧
    c3rec.old_price = some 0 ∧
    c3rec.discount = some (.str "") ∧
    c3rec.sold_count = Val.null := by
  refine ⟨rfl, ?_, ?_, rfl, rfl⟩ <;>
    · show some (((0 : Int) : Rat) / 100000) = some 0
      norm_num

/-- C3 (amended): in the flash-sale and daily-discover per-item extraction,
absent name, score and image become absent (None); absent price and
old_price default to the present number 0.0; absent discount defaults to
the present empty string; and an absent count becomes 0 only in
daily-discover — flash-sale leaves sold_count as None. -/
theorem C3_absent_field_defaults :
    (∀ (it : Val) (r : ProductRecord), flashItem it = some r →
      (it.hasKey "name" = false → r.name = .null) ∧
      (it.hasKey "item_rating" = false → r.score = .null) ∧
      (it.hasKey "image" = false → r.primary_image = none) ∧
      (it.hasKey "price" = false → r.price = some 0) ∧
      (it.hasKey "price_before_discount" = false → r.old_price = some 0) ∧
      (it.hasKey "discount" = false → r.discount = some (.str "")) ∧
      (it.hasKey "historical_sold" = false → r.sold_count = .null)) ∧
    (∀ (it : Val) (r : ProductRecord), discoverItem it = some r →
      (it.hasKey "name" = false → r.name = .null) ∧
      (it.hasKey "item_rating" = false → r.score = .null) ∧
      (it.hasKey "image" = false → r.primary_image = none) ∧
      (it.hasKey "item_card_display_price" = false →
        r.price = some 0 ∧ r.old_price = some 0 ∧ r.discount = some (.str "")) ∧
      (it.hasKey "historical_sold" = false → r.sold_count = .int 0)) := by
  constructor
  · intro it r h
    cases it with
    | dict itd =>
      simp only [flashItem] at h
      obtain ⟨p, hp, h⟩ := obind_some h
      obtain ⟨op, hop, h⟩ := obind_some h
      obtain ⟨sc, hsc, h⟩ := obind_some h
      cases h
      refine ⟨?_, ?_, ?_, ?_, ?_, ?_, ?_⟩
      · intro hk
        exact dget_of_hasKey_false hk
      · intro hk
        rw [dgetD_of_hasKey_false hk] at hsc
        cases hsc
        rfl
      · intro hk
        show (if (dget itd "image").truthy then _ else _) = _
        rw [dget_of_hasKey_false hk]
        rfl
      · intro hk
        rw [dget_of_hasKey_false hk, pyDiv_null_or_zero] at hp
        cases hp
        rfl
      · intro hk
        rw [dget_of_hasKey_false hk, pyDiv_null_or_zero] at hop
        cases hop
        rfl
      · intro hk
        show some (dgetD itd "discount" (.str "")) = _
        rw [dgetD_of_hasKey_false hk]
      · intro hk
        show dget itd "historical_sold" = Val.null
        exact dget_of_hasKey_false hk
    | null => exact Option.noConfusion h
    | bool b => exact Option.noConfusion h
    | int n => exact Option.noConfusion h
    | float q => exact Option.noConfusion h
    | str s => exact Option.noConfusion h
    | list xs => exact Option.noConfusion h
  · intro it r h
    cases it with
    | dict itd =>
      simp only [discoverItem] at h
      obtain ⟨pv, hpv, h⟩ := obind_some h
      obtain ⟨p, hp, h⟩ := obind_some h
      obtain ⟨ov, hov, h⟩ := obind_some h
      obtain ⟨op, hop, h⟩ := obind_some h
      obtain ⟨dv, hdv, h⟩ := obind_some h
      obtain ⟨sc, hsc, h⟩ := obind_some h
      obtain ⟨i3, hi3, h⟩ := obind_some h
      cases h
      refine ⟨?_, ?_, ?_, ?_, ?_⟩
      · intro hk
        exact dget_of_hasKey_false hk
      · intro hk
        rw [dgetD_of_hasKey_false hk] at hsc
        cases hsc
        rfl
      · intro hk
        show (if (dget itd "image").truthy then _ else _) = _
        rw [dget_of_hasKey_false hk]
        rfl
      · intro hk
        rw [dgetD_of_hasKey_false hk] at hpv hov hdv
        cases hpv
        cases hov
        cases hdv
        have h0 : pyDiv100000 (pyOr
            ((lookupKey ([] : List (String × Val)) "price").getD Val.null)
            (Val.int 0)) = some 0 := pyDiv_null_or_zero
        have h1 : pyDiv100000 (pyOr
            ((lookupKey ([] : List (String × Val)) "strikethrough_price").getD Val.null)
            (Val.int 0)) = some 0 := pyDiv_null_or_zero
        rw [h0] at hp
        rw [h1] at hop
        cases hp
        cases hop
        exact ⟨rfl, rfl, rfl⟩
      · intro hk
        show pyOr (dget itd "historical_sold") (.int 0) = _
        rw [dget_of_hasKey_false hk]
        rfl
    | null => exact Option.noConfusion h
    | bool b => exact Option.noConfusion h
    | int n => exact Option.noConfusion h
    | float q => exact Option.noConfusion h
    | str s => exact Option.noConfusion h
    | list xs => exact Option.noConfusion h

/-- Witness for C3_absent_field_defaults: the item `c3item` has none of the
optional keys; both per-item extractors accept it. -/
theorem C3_absent_field_defaults_witness :
    (c3flashRec.price = some 0 ∧ c3flashRec.discount = some (.str "") ∧
      c3flashRec.sold_count = Val.null ∧ c3flashRec.name = Val.null) ∧
    (c3discRec.price = some 0 ∧ c3discRec.sold_count = Val.int 0 ∧
      c3discRec.primary_image = none) := by
  have hf := (C3_absent_field_defaults.1 c3item c3flashRec rfl)
  have hd := (C3_absent_field_defaults.2 c3item c3discRec rfl)
  exact ⟨⟨hf.2.2.2.1 rfl, hf.2.2.2.2.2.1 rfl, hf.2.2.2.2.2.2 rfl, hf.1 rfl⟩,
         ⟨(hd.2.2.2.1 rfl).1, hd.2.2.2.2 rfl, hd.2.2.1 rfl⟩⟩

theorem flashItem_dict {it : Val} {r : ProductRecord}
    (h : flashItem it = some r) : ∃ kvs, it = Val.dict kvs := by
  cases it <;> first | exact ⟨_, rfl⟩ | exact Option.noConfusion h

theorem discoverItem_dict {it : Val} {r : ProductRecord}
    (h : discoverItem it = some r) : ∃ kvs, it = Val.dict kvs := by
  cases it <;> first | exact ⟨_, rfl⟩ | exact Option.noConfusion h

/-- C6: whenever the raw price field is present (as the API integer), the
normalized price and old_price of the flash-sale and daily-discover
extraction are that integer divided by exactly 100000. -/
theorem C6_price_scale :
    (∀ (it : Val) (r : ProductRecord) (n : Int),
      flashItem it = some r → it.getS "price" = some (.int n) →
      r.price = some ((n : Rat) / 100000)) ∧
    (∀ (it : Val) (r : ProductRecord) (n : Int),
      flashItem it = some r →
      it.getS "price_before_discount" = some (.int n) →
      r.old_price = some ((n : Rat) / 100000)) ∧
    (∀ (it dp : Val) (r : ProductRecord) (n : Int),
      discoverItem it = some r →
      it.getDflt "item_card_display_price" (.dict []) = some dp →
      dp.getS "price" = some (.int n) →
      r.price = some ((n : Rat) / 100000)) ∧
    (∀ (it dp : Val) (r : ProductRecord) (n : Int),
      discoverItem it = some r →
      it.getDflt "item_card_display_price" (.dict []) = some dp →
      dp.getS "strikethrough_price" = some (.int n) →
      r.old_price = some ((n : Rat) / 100000)) := by
  refine ⟨?_, ?_, ?_, ?_⟩
  · intro it r n h hn
    obtain ⟨itd, rfl⟩ := flashItem_dict h
    simp only [flashItem] at h
    obtain ⟨p, hp, h⟩ := obind_some h
    obtain ⟨op, hop, h⟩ := obind_some h
    obtain ⟨sc, hsc, h⟩ := obind_some h
    cases h
    simp only [Val.getS, Val.getDflt, Option.some.injEq] at hn
    have hdg : dget itd "price" = .int n := hn
    rw [hdg, pyOr_int_zero] at hp
    have hv : pyDiv100000 (Val.int n) = some ((n : Rat) / 100000) := rfl
    rw [hv] at hp
    cases hp
    rfl
  · intro it r n h hn
    obtain ⟨itd, rfl⟩ := flashItem_dict h
    simp only [flashItem] at h
    obtain ⟨p, hp, h⟩ := obind_some h
    obtain ⟨op, hop, h⟩ := obind_some h
    obtain ⟨sc, hsc, h⟩ := obind_some h
    cases h
    simp only [Val.getS, Val.getDflt, Option.some.injEq] at hn
    have hdg : dget itd "price_before_discount" = .int n := hn
    rw [hdg, pyOr_int_zero] at hop
    have hv : pyDiv100000 (Val.int n) = some ((n : Rat) / 100000) := rfl
    rw [hv] at hop
    cases hop
    rfl
  · intro it dp r n h hdp hn
    obtain ⟨itd, rfl⟩ := discoverItem_dict h
    simp only [discoverItem] at h
    obtain ⟨pv, hpv, h⟩ := obind_some h
    obtain ⟨p, hp, h⟩ := obind_some h
    obtain ⟨ov, hov, h⟩ := obind_some h
    obtain ⟨op, hop, h⟩ := obind_some h
    obtain ⟨dv, hdv, h⟩ := obind_some h
    obtain ⟨sc, hsc, h⟩ := obind_some h
    obtain ⟨i3, hi3, h⟩ := obind_some h
    cases h
    simp only [Val.getDflt, Option.some.injEq] at hdp
    have hdp2 : dgetD itd "item_card_display_price" (.dict []) = dp := hdp
    rw [hdp2] at hpv
    rw [hn] at hpv
    cases hpv
    rw [pyOr_int_zero] at hp
    have hv : pyDiv100000 (Val.int n) = some ((n : Rat) / 100000) := rfl
    rw [hv] at hp
    cases hp
    rfl
  · intro it dp r n h hdp hn
    obtain ⟨itd, rfl⟩ := discoverItem_dict h
    simp only [discoverItem] at h
    obtain ⟨pv, hpv, h⟩ := obind_some h
    obtain ⟨p, hp, h⟩ := obind_some h
    obtain ⟨ov, hov, h⟩ := obind_some h
    obtain ⟨op, hop, h⟩ := obind_some h
    obtain ⟨dv, hdv, h⟩ := obind_some h
    obtain ⟨sc, hsc, h⟩ := obind_some h
    obtain ⟨i3, hi3, h⟩ := obind_some h
    cases h
    simp only [Val.getDflt, Option.some.injEq] at hdp
    have hdp2 : dgetD itd "item_card_display_price" (.dict []) = dp := hdp
    rw [hdp2] at hov
    rw [hn] at hov
    cases hov
    rw [pyOr_int_zero] at hop
    have hv : pyDiv100000 (Val.int n) = some ((n : Rat) / 100000) := rfl
    rw [hv] at hop
    cases hop
    rfl

/-- Witness for C6_price_scale: the documented example raw value 12345600
normalizes to 123.456. -/
theorem C6_price_scale_witness :
    flashItem c6item = some c6rec ∧
    c6rec.price = some (((12345600 : Int) : Rat) / 100000) ∧
    (((12345600 : Int) : Rat) / 100000 = 123.456) :=
  ⟨rfl, C6_price_scale.1 c6item c6rec 12345600 rfl rfl, by norm_num⟩

/-- C8: loading an absent or unreadable artifact yields the empty structure
rather than an error, and each of the five extractors returns the empty
sequence both on the empty structure and on any payload whose container at
the expected path is present but empty. -/
theorem C8_empty_degradation :
    load_json_data none = Val.dict [] ∧
    extract_shopee_products (.dict []) = some [] ∧
    extract_suggestions (.dict []) = some [] ∧
    extract_categories (.dict []) = some [] ∧
    extract_flash_sales (.dict []) = some [] ∧
    extract_daily_discover (.dict []) = some [] ∧
    (∀ data : Val, container data "sections" = some (.list []) →
      extract_shopee_products data = some []) ∧
    (∀ data : Val, container data "queries" = some (.list []) →
      extract_suggestions data = some []) ∧
    (∀ data : Val, container data "category_list" = some (.list []) →
      extract_categories data = some []) ∧
    (∀ data : Val, container data "items" = some (.list []) →
      extract_flash_sales data = some []) ∧
    (∀ data : Val, container data "feeds" = some (.list []) →
      extract_daily_discover data = some []) := by
  refine ⟨rfl, rfl, rfl, rfl, rfl, rfl, ?_, ?_, ?_, ?_, ?_⟩ <;>
    · intro data hc
      simp only [extract_shopee_products, extract_suggestions,
        extract_categories, extract_flash_sales, extract_daily_discover, hc]
      rfl

/-- Witness for C8_empty_degradation: a payload with a present-but-empty
sections container extracts to the empty sequence. -/
theorem C8_empty_degradation_witness :
    container c8payload "sections" = some (.list []) ∧
    extract_shopee_products c8payload = some [] :=
  ⟨rfl, C8_empty_degradation.2.2.2.2.2.2.1 c8payload rfl⟩

theorem scrollLoop_length_le (isSet : Nat → Bool) :
    ∀ n i : Nat, (scrollLoop n i isSet).length ≤ n := by
  intro n
  induction n with
  | zero =>
    intro i
    rw [scrollLoop]
    exact Nat.le_refl 0
  | succ n ih =>
    intro i
    rw [scrollLoop]
    by_cases hs : isSet i
    · rw [if_pos hs]
      simp
    · rw [if_neg hs]
      simp only [List.length_cons]
      exact Nat.succ_le_succ (ih (i + 1))

theorem scrollLoop_getElem (isSet : Nat → Bool) :
    ∀ (n i j : Nat), j < (scrollLoop n i isSet).length →
      (scrollLoop n i isSet)[j]? = some (600 + (i + j) * 200) := by
  intro n
  induction n with
  | zero =>
    intro i j hj
    rw [scrollLoop] at hj
    simp at hj
  | succ n ih =>
    intro i j hj
    by_cases hs : isSet i
    · rw [scrollLoop, if_pos hs] at hj
      simp at hj
    · rw [scrollLoop, if_neg hs] at hj ⊢
      cases j with
      | zero => simp
      | succ j2 =>
        rw [List.getElem?_cons_succ]
        have hj2 : j2 < (scrollLoop n (i + 1) isSet).length := by
          simp only [List.length_cons] at hj
          omega
        rw [ih (i + 1) j2 hj2]
        congr 1
        omega

theorem scrollLoop_stop (isSet : Nat → Bool)
    (mono : ∀ a b : Nat, a ≤ b → isSet a = true → isSet b = true)
    {k : Nat} (hk : isSet k = true) :
    ∀ n i : Nat, (scrollLoop n i isSet).length ≤ k - i := by
  intro n
  induction n with
  | zero =>
    intro i
    rw [scrollLoop]
    simp
  | succ n ih =>
    intro i
    by_cases hik : k ≤ i
    · have hsi : isSet i = true := mono k i hik hk
      rw [scrollLoop, if_pos hsi]
      simp
    · have hlen := ih (i + 1)
      rw [scrollLoop]
      by_cases hs : isSet i
      · rw [if_pos hs]
        simp
      · rw [if_neg hs]
        simp only [List.length_cons]
        omega

/-- C9: the scroll stimulation loop injects at most 15 scrolls; the j-th
injection (0-based) is 600 + j*200 pixels; and once the CaptureSignal is
set (it stays set: the monotonicity hypothesis) no further injection
happens — if the signal reads true at check k, at most k injections were
performed, so the loop exits at the next check instead of exhausting the
budget. -/
theorem C9_scroll_budget :
    (∀ isSet : Nat → Bool, (scrollRun isSet).length ≤ 15) ∧
    (∀ (isSet : Nat → Bool) (j : Nat), j < (scrollRun isSet).length →
      (scrollRun isSet)[j]? = some (600 + j * 200)) ∧
    (∀ (isSet : Nat → Bool) (k : Nat),
      (∀ a b : Nat, a ≤ b → isSet a = true → isSet b = true) →
      isSet k = true → (scrollRun isSet).length ≤ k) := by
  refine ⟨?_, ?_, ?_⟩
  · intro s
    exact scrollLoop_length_le s 15 0
  · intro s j hj
    have h := scrollLoop_getElem s 15 0 j hj
    simpa using h
  · intro s k mono hk
    have h := scrollLoop_stop s mono hk 15 0
    simpa using h

/-- Witness for C9_scroll_budget: with a never-set signal the loop performs
15 injections and the third one is 1000 pixels; with an always-set signal
no injection at all happens. -/
theorem C9_scroll_budget_witness :
    (scrollRun (fun _ => false)).length ≤ 15 ∧
    (scrollRun (fun _ => false))[2]? = some 1000 ∧
    (scrollRun (fun _ => true)).length ≤ 0 :=
  ⟨C9_scroll_budget.1 (fun _ => false),
   by
     have h := C9_scroll_budget.2.1 (fun _ => false) 2 (by decide)
     simpa using h,
   C9_scroll_budget.2.2 (fun _ => true) 0 (fun _ _ _ hs => hs) rfl⟩

theorem target_url_not_empty {s : String}
    (h : strContains targetFrag s = true) : (s == "") = false := by
  cases hs : s == ""
  · rfl
  · exfalso
    have heq : s = "" := eq_of_beq hs
    subst heq
    exact absurd h (by decide)

theorem handle_response_inv (st : HarvestState) (r : RespEv)
    (h1 : urlFalsy st.url = st.url.isNone)
    (h2 : st.captured = true → st.url.isNone = false) :
    urlFalsy (handle_response st r).url = (handle_response st r).url.isNone ∧
      ((handle_response st r).captured = true →
        (handle_response st r).url.isNone = false) := by
  unfold handle_response
  by_cases hf : strContains targetFrag r.url
  · rw [if_pos hf]
    by_cases hb : (strContains bundleFrag r.url || urlFalsy st.url) = true
    · rw [if_pos hb]
      refine ⟨?_, fun _ => rfl⟩
      show (r.url == "") = false
      exact target_url_not_empty hf
    · rw [if_neg hb]
      exact ⟨h1, h2⟩
  · rw [if_neg hf]
    exact ⟨h1, h2⟩

theorem foldl_handle_inv :
    ∀ (rs : List RespEv) (st : HarvestState),
      urlFalsy st.url = st.url.isNone →
      (st.captured = true → st.url.isNone = false) →
      urlFalsy (rs.foldl handle_response st).url =
          (rs.foldl handle_response st).url.isNone ∧
        ((rs.foldl handle_response st).captured = true →
          (rs.foldl handle_response st).url.isNone = false)
  | [], _, h1, h2 => ⟨h1, h2⟩
  | r :: rs, st, h1, h2 => by
    have h := handle_response_inv st r h1 h2
    exact foldl_handle_inv rs (handle_response st r) h.1 h.2

/-- C4: after any run of observed responses, a response matching the target
API path fragment overwrites the harvested TokenRecord exactly when it
carries the bundle discriminator or nothing has been captured yet; in
particular once CaptureSignal is set, a matching response without the
discriminator leaves the state unchanged. -/
theorem C4_capture_overwrite_iff :
    (∀ (rs : List RespEv) (r : RespEv),
      strContains targetFrag r.url = true →
      handle_response (runResponses rs) r =
        if strContains bundleFrag r.url || (runResponses rs).url.isNone
        then capturedFrom r else runResponses rs) ∧
    (∀ (rs : List RespEv) (r : RespEv),
      (runResponses rs).captured = true →
      strContains targetFrag r.url = true →
      strContains bundleFrag r.url = false →
      handle_response (runResponses rs) r = runResponses rs) := by
  have hinv : ∀ rs : List RespEv,
      urlFalsy (runResponses rs).url = (runResponses rs).url.isNone ∧
        ((runResponses rs).captured = true →
          (runResponses rs).url.isNone = false) :=
    fun rs => foldl_handle_inv rs initState rfl (fun hc => Bool.noConfusion hc)
  constructor
  · intro rs r hf
    unfold handle_response
    rw [if_pos hf, (hinv rs).1]
  · intro rs r hc hf hnb
    unfold handle_response
    rw [if_pos hf, hnb, (hinv rs).1, (hinv rs).2 hc]
    simp

/-- Witness for C4_capture_overwrite_iff: after capturing the bundle
response, a second matching response without the discriminator does not
overwrite. -/
theorem C4_capture_overwrite_iff_witness :
    (runResponses [respA]).captured = true ∧
    handle_response (runResponses [respA]) respB = runResponses [respA] :=
  ⟨by decide,
   C4_capture_overwrite_iff.2 [respA] respB (by decide) (by decide) (by decide)⟩

/-- C7 counterexample: an HTTP 200 response whose body fails to parse as
JSON hits the exception handler and is NOT persisted — the previous
artifact survives — refuting persist-iff-status-200. -/
theorem C7_unparsable_200_not_persisted :
    fetch_shopee_direct { status := 200, text := "not json", jsonBody := none }
        (some c7prev) = (some c7prev, .exn) := rfl

/-- C7 (amended): the replay client persists the fresh body (overwriting
the previous artifact) iff the status is 200 AND the body parses as JSON
AND the product-count walk over it succeeds; on any non-200 status it
reports the status code with the body excerpt truncated to 200 characters
and leaves the artifact unchanged; on a 200 response whose body fails to
parse or whose shape breaks the count walk the exception path also leaves
the artifact unchanged. -/
theorem C7_persist_conditions :
    ∀ (resp : HttpResponse) (artifact : Option Val),
      (∀ (d : Val) (n : Nat), resp.status = 200 → resp.jsonBody = some d →
        countTopProducts d = some n →
        fetch_shopee_direct resp artifact = (some d, .success n)) ∧
      (resp.status = 200 → resp.jsonBody = none →
        fetch_shopee_direct resp artifact = (artifact, .exn)) ∧
      (∀ d : Val, resp.status = 200 → resp.jsonBody = some d →
        countTopProducts d = none →
        fetch_shopee_direct resp artifact = (artifact, .exn)) ∧
      (resp.status ≠ 200 →
        fetch_shopee_direct resp artifact =
          (artifact, .httpError resp.status (pyTruncate resp.text 200))) := by
  intro resp artifact
  refine ⟨?_, ?_, ?_, ?_⟩
  · intro d n h200 hb hc
    unfold fetch_shopee_direct
    rw [h200, hb]
    show (match countTopProducts d with
        | none => (artifact, FetchOutcome.exn)
        | some n => (some d, FetchOutcome.success n)) =
      (some d, FetchOutcome.success n)
    rw [hc]
  · intro h200 hb
    unfold fetch_shopee_direct
    rw [h200, hb]
    rfl
  · intro d h200 hb hc
    unfold fetch_shopee_direct
    rw [h200, hb]
    show (match countTopProducts d with
        | none => (artifact, FetchOutcome.exn)
        | some n => (some d, FetchOutcome.success n)) =
      (artifact, FetchOutcome.exn)
    rw [hc]
  · intro hne
    have hb : (resp.status == 200) = false := by
      simpa using hne
    unfold fetch_shopee_direct
    rw [hb]
    rfl

/-- Witness for C7_persist_conditions at the non-200 branch. -/
theorem C7_persist_conditions_witness :
    fetch_shopee_direct { status := 403, text := "blocked", jsonBody := none }
        (some c7prev) =
      (some c7prev, .httpError 403 (pyTruncate "blocked" 200)) :=
  (C7_persist_conditions
      { status := 403, text := "blocked", jsonBody := none }
      (some c7prev)).2.2.2 (by decide)
